import Mathlib

/-!
# Verification of the text-adventure game core

A shallow embedding of the game's core logic: the incremental streaming
response assembler, the game-state reconciler (quests, inventory,
character stats, lore proposals), the level-up resolution, and the
faction-sigil generation pipeline.  Definitions are translated from the
TypeScript source; theorems check the natural-language specification
against them.

Machine numbers are modelled as `Int` (all arithmetic in the source stays
far below the 2^53 exactness bound of JavaScript numbers).
-/

namespace Adventure

/-! ## Data model

The repository's `types.ts` is not present among the sources; the shapes
below are reconstructed from the JSON output schemas declared in the
service module (which are in the sources) and from field usage in the
components. -/

/-- Item rarity, per the item schema: one of Common..Legendary. -/
inductive ItemRarity where
  | common | uncommon | rare | epic | legendary
deriving DecidableEq, Repr

/-- Item category, per the item schema. -/
inductive ItemType where
  | consumable | questItem | equipment | tome
deriving DecidableEq, Repr

/-- One stat effect of an item: stat name and signed delta. -/
structure ItemEffect where
  stat : String
  value : Int
deriving DecidableEq, Repr

/-- An inventory item, per the item schema. -/
structure Item where
  name : String
  description : String
  rarity : ItemRarity
  type : ItemType
  usable : Bool
  effects : List ItemEffect
deriving DecidableEq, Repr

/-- The player character, per the scenario schema. -/
structure Character where
  name : String
  backstory : String
  health : Int
  maxHealth : Int
  mana : Int
  maxMana : Int
  stamina : Int
  maxStamina : Int
  level : Int
  xp : Int
  xpToNextLevel : Int
deriving DecidableEq, Repr

/-- Quest status, per the quest schema: 'active' | 'completed' | 'failed'. -/
inductive QuestStatus where
  | active | completed | failed
deriving DecidableEq, Repr

/-- A quest objective: text, completion flag, and an optional list of
nested sub-objectives (`subObjectives` is an optional array in the
schema, so `none` models an absent field and `some []` an empty one). -/
inductive Objective where
  | mk (text : String) (isCompleted : Bool)
       (subObjectives : Option (List Objective)) : Objective
deriving Repr

def Objective.text : Objective → String
  | .mk t _ _ => t

def Objective.isCompleted : Objective → Bool
  | .mk _ c _ => c

def Objective.subObjectives : Objective → Option (List Objective)
  | .mk _ _ s => s

/-- A side quest, per the quest schema. -/
structure Quest where
  title : String
  description : String
  status : QuestStatus
  objectives : List Objective
deriving Repr

/-! ## Objective-tree operations (from the per-turn reconciler) -/

/-- Structural equality of objective lists.  In the source the changed
check compares `JSON.stringify` images of the two arrays, which for
these trees coincides with structural equality. -/
def objListBeq : List Objective → List Objective → Bool
  | [], [] => true
  | .mk t1 c1 s1 :: r1, .mk t2 c2 s2 :: r2 =>
      t1 == t2 && c1 == c2 &&
      (match s1, s2 with
       | none, none => true
       | some l1, some l2 => objListBeq l1 l2
       | _, _ => false) &&
      objListBeq r1 r2
  | _, _ => false
termination_by l1 _ => sizeOf l1

/-- `updateObjectivesRecursively` from the reconciler: mark the objective
whose text equals the target as completed; otherwise descend into the
sub-objectives, and when the subtree actually changed, recompute the
parent's completion flag as the conjunction of its direct children's
flags. -/
def updateObjectivesRecursively (t : String) : List Objective → List Objective
  | [] => []
  | .mk text c subs :: rest =>
      (if text = t then Objective.mk text true subs
       else
         match subs with
         | some l =>
             let newSubs := updateObjectivesRecursively t l
             -- the source tests wasChanged via JSON.stringify comparison
             if objListBeq newSubs l then Objective.mk text c subs
             else Objective.mk text (newSubs.all fun o => o.isCompleted)
                    (some newSubs)
         | none => Objective.mk text c subs) ::
      updateObjectivesRecursively t rest
termination_by os => sizeOf os

/-- `areAllObjectivesComplete` from the reconciler: every objective is
completed, and, when it has sub-objectives, transitively so are they. -/
def areAllObjectivesComplete : List Objective → Bool
  | [] => true
  | .mk _ c subs :: rest =>
      (c && (match subs with
             | none => true
             | some l => areAllObjectivesComplete l)) &&
      areAllObjectivesComplete rest
termination_by os => sizeOf os

/-- Does any objective in the forest carry the given text?  (Used to
state the no-textual-match no-op property.) -/
def objListHasText (t : String) : List Objective → Bool
  | [] => false
  | .mk text _ subs :: rest =>
      (text = t ||
       (match subs with
        | none => false
        | some l => objListHasText t l)) ||
      objListHasText t rest
termination_by os => sizeOf os

/-- Is every objective carrying the given text already completed? -/
def objListTextCompleted (t : String) : List Objective → Bool
  | [] => true
  | .mk text c subs :: rest =>
      ((if text = t then c else true) &&
       (match subs with
        | none => true
        | some l => objListTextCompleted t l)) &&
      objListTextCompleted t rest
termination_by os => sizeOf os

/-- A `questUpdate` payload from the per-turn schema: quest title, the
exact text of the completed objective, and an optional explicit new
status for the whole quest. -/
structure QuestUpdate where
  questTitle : String
  objectiveText : String
  newStatus : Option QuestStatus
deriving Repr

/-- Application of a `questUpdate` to one quest, as in the reconciler:
on a title match, rewrite the objective tree, then set the status to the
explicit override when present, else to completed when the whole tree is
complete, else keep the old status. -/
def applyQuestUpdateToQuest (u : QuestUpdate) (q : Quest) : Quest :=
  if q.title = u.questTitle then
    let updatedObjectives := updateObjectivesRecursively u.objectiveText q.objectives
    let allComplete := areAllObjectivesComplete updatedObjectives
    let finalStatus :=
      match u.newStatus with
      | some s => s
      | none => if allComplete then QuestStatus.completed else q.status
    { q with objectives := updatedObjectives, status := finalStatus }
  else q

/-- The quest-list traversal of the reconciler (`updatedQuests.map`). -/
def applyQuestUpdate (u : QuestUpdate) (qs : List Quest) : List Quest :=
  qs.map (applyQuestUpdateToQuest u)

/-! ## Lore, story log and game state -/

/-- A named lore entry (discovered location or character). -/
structure LoreEntry where
  name : String
  description : String
deriving DecidableEq, Repr

/-- A faction; the sigil/emblem URL is filled in asynchronously after
creation and the empty string stands for "no emblem" (the factions
generator initialises it to `''` and the sigil generator returns `''` on
failure). -/
structure Faction where
  name : String
  description : String
  leader : String
  headquarters : String
  ideology : String
  relationships : String
  sigilImageUrl : String
deriving DecidableEq, Repr

/-- World lore.  Only the fields read or written by the modelled
operations are carried; the remaining fields (timeline, cosmology, magic
system, races, creatures, secrets, historical figures) are copied
verbatim by every modelled operation and are omitted. -/
structure Lore where
  worldName : String
  coreConcept : String
  factions : List Faction
  locations : List LoreEntry
  characters : List LoreEntry
  knowledge : List String
deriving DecidableEq, Repr

/-- Story-log entry author. -/
inductive EntryType where
  | player | narrator
deriving DecidableEq, Repr

/-- One story-log line.  `characterName` is present on dialogue lines.
The transient image fields (`imageIsLoading`, `imageUrl`) belong to the
fire-and-forget scene-image side task, which is outside this model. -/
structure StoryEntry where
  type : EntryType
  text : String
  characterName : Option String
deriving DecidableEq, Repr

/-- The starting setting of a scenario. -/
structure Setting where
  name : String
  description : String
deriving DecidableEq, Repr

/-- A scenario, per the scenario schema. -/
structure Scenario where
  character : Character
  setting : Setting
  goal : String
  objective : String
deriving DecidableEq, Repr

/-- The aggregate game state held by the game screen. -/
structure GameState where
  lore : Lore
  scenario : Scenario
  currentLocation : String
  inventory : List Item
  storyLog : List StoryEntry
  objective : String
  quests : List Quest
  isGameOver : Bool
  gameOverMessage : String
deriving Repr

/-- Kind of a proposed lore update, per the per-turn schema. -/
inductive LoreUpdateType where
  | location | character | knowledge
deriving DecidableEq, Repr

/-- A proposed lore update staged for explicit user accept/reject. -/
structure LoreUpdate where
  type : LoreUpdateType
  name : String
  description : String
deriving DecidableEq, Repr

/-- The game screen's React state besides `gameState`: the loading flag,
the staged lore proposal, and the pending-level-up flag. -/
structure UiState where
  gameState : GameState
  isLoading : Bool
  proposedUpdate : Option LoreUpdate
  isLevelingUp : Bool
deriving Repr

/-! ## Per-turn structured response

Modelled from the spec: the `GeminiResponse` interface lives in the
repository's `types.ts`, which is not among the sources; its shape is
reconstructed from the per-turn output schema (`gameStepSchema`) in the
service module, whose required fields are narrative, newLocation,
updatedInventory, newObjective, isGameOver and gameOverMessage, with
dialogue, newQuest, questUpdate, characterUpdate, loreUpdate and
requestImageGeneration optional. -/

/-- One NPC dialogue line of a turn result. -/
structure DialogueLine where
  characterName : String
  text : String
deriving DecidableEq, Repr

/-- The optional per-turn character stat delta. -/
structure CharacterUpdate where
  health : Option Int
  mana : Option Int
  stamina : Option Int
  xpGained : Option Int
deriving DecidableEq, Repr

/-- A parsed per-turn structured turn result. -/
structure GeminiResponse where
  narrative : String
  dialogue : Option (List DialogueLine)
  newLocation : String
  updatedInventory : List Item
  newObjective : String
  newQuest : Option Quest
  questUpdate : Option QuestUpdate
  isGameOver : Bool
  gameOverMessage : String
  characterUpdate : Option CharacterUpdate
  loreUpdate : Option LoreUpdate
  requestImageGeneration : Bool
deriving Repr

/-! ## The game-state reconciler and the user-driven handlers -/

/-- The submit gate at the top of `executeAction`: a blank action, an
outstanding generation, a finished game, a staged lore proposal or a
pending level-up each reject the submission.  `!action.trim()` is truthy
exactly when the action consists of whitespace only. -/
def actionGated (ui : UiState) (action : String) : Bool :=
  action.data.all (fun c => c.isWhitespace) || ui.isLoading ||
    ui.gameState.isGameOver || ui.proposedUpdate.isSome || ui.isLevelingUp

/-- The success-path state update of `executeAction`: given the previous
UI state, the player's action and the parsed turn result, produce the
next UI state (story log, location, inventory, objective, quests,
character, game-over flag, staged lore proposal, pending level-up). -/
def reconcileTurn (ui : UiState) (action : String) (resp : GeminiResponse) :
    UiState :=
  let gs := ui.gameState
  let playerEntry : StoryEntry := { type := .player, text := action, characterName := none }
  -- the log as extended at submit time: player entry plus empty narrator entry
  let logWithPlaceholder :=
    gs.storyLog ++ [playerEntry, { type := .narrator, text := "", characterName := none }]
  let narratorEntryIndex := gs.storyLog.length + 1
  let finalLog₀ := logWithPlaceholder.set narratorEntryIndex
    { type := .narrator, text := resp.narrative, characterName := none }
  let finalLog := finalLog₀ ++ (resp.dialogue.getD []).map
    (fun d => { type := .narrator, text := d.text, characterName := some d.characterName })
  let quests₁ :=
    match resp.newQuest with
    | some nq => gs.quests ++ [nq]
    | none => gs.quests
  let quests₂ :=
    match resp.questUpdate with
    | some u => applyQuestUpdate u quests₁
    | none => quests₁
  let c₀ := gs.scenario.character
  let c₁ :=
    match resp.characterUpdate with
    | some cu =>
        { c₀ with
          health := cu.health.getD c₀.health,
          mana := cu.mana.getD c₀.mana,
          stamina := cu.stamina.getD c₀.stamina }
    | none => c₀
  -- `response.characterUpdate?.xpGained` is tested for truthiness, so a
  -- present-but-zero gain is skipped while a negative gain is applied
  let xpg : Option Int :=
    match resp.characterUpdate with
    | some cu =>
        match cu.xpGained with
        | some g => if g = 0 then none else some g
        | none => none
    | none => none
  let c₂ :=
    match xpg with
    | some g => { c₁ with xp := c₁.xp + g }
    | none => c₁
  let leveling :=
    match xpg with
    | some g => if c₁.xp + g ≥ c₁.xpToNextLevel then true else ui.isLevelingUp
    | none => ui.isLevelingUp
  { gameState :=
      { gs with
        storyLog := finalLog,
        currentLocation := resp.newLocation,
        inventory := resp.updatedInventory,
        objective := resp.newObjective,
        quests := quests₂,
        isGameOver := resp.isGameOver,
        gameOverMessage := resp.gameOverMessage,
        scenario := { gs.scenario with character := c₂ } },
    isLoading := false,
    proposedUpdate :=
      match resp.loreUpdate with
      | some lu => some lu
      | none => ui.proposedUpdate,
    isLevelingUp := leveling }

/-- The failure-path state update of `executeAction` (the catch block):
the narrator entry created for this turn is replaced with the error
message; everything else is untouched and loading ends. -/
def failTurn (ui : UiState) (action : String) (errorText : String) : UiState :=
  let gs := ui.gameState
  let playerEntry : StoryEntry := { type := .player, text := action, characterName := none }
  { ui with
    gameState :=
      { gs with
        storyLog := gs.storyLog ++
          [playerEntry, { type := .narrator, text := errorText, characterName := none }] },
    isLoading := false }

/-- `handleAcceptUpdate`: merge the staged lore proposal into the lore,
de-duplicated by exact name (locations, characters) or by the exact
`name: description` string (knowledge), then clear the proposal. -/
def handleAcceptUpdate (ui : UiState) : UiState :=
  match ui.proposedUpdate with
  | none => ui
  | some pu =>
      let lore := ui.gameState.lore
      let newLore :=
        match pu.type with
        | .location =>
            if lore.locations.any (fun l => l.name == pu.name) then lore
            else { lore with locations := lore.locations ++ [⟨pu.name, pu.description⟩] }
        | .character =>
            if lore.characters.any (fun c => c.name == pu.name) then lore
            else { lore with characters := lore.characters ++ [⟨pu.name, pu.description⟩] }
        | .knowledge =>
            let newKnowledge := pu.name ++ ": " ++ pu.description
            if lore.knowledge.contains newKnowledge then lore
            else { lore with knowledge := lore.knowledge ++ [newKnowledge] }
      { ui with gameState := { ui.gameState with lore := newLore }, proposedUpdate := none }

/-- `handleRejectUpdate`: discard the staged lore proposal. -/
def handleRejectUpdate (ui : UiState) : UiState :=
  { ui with proposedUpdate := none }

/-- The allocation confirmed in the level-up modal. -/
structure StatIncreases where
  maxHealth : Int
  maxMana : Int
  maxStamina : Int
deriving DecidableEq, Repr

/-- `Math.floor(x * 1.5)` on an (exactly represented) integer. -/
def floorTimesOnePointFive (x : Int) : Int := Int.fdiv (3 * x) 2

/-- `handleLevelUpConfirm`: raise the level by one, carry the xp
overflow, scale the next-level threshold by 1.5 rounded down, add the
allocated increases to the maxima and restore the current stats to the
new maxima; the pending-level-up flag is cleared. -/
def handleLevelUpConfirm (ui : UiState) (inc : StatIncreases) : UiState :=
  let char := ui.gameState.scenario.character
  let newMaxHealth := char.maxHealth + inc.maxHealth
  let newMaxMana := char.maxMana + inc.maxMana
  let newMaxStamina := char.maxStamina + inc.maxStamina
  let updatedCharacter : Character :=
    { char with
      level := char.level + 1,
      xp := char.xp - char.xpToNextLevel,
      xpToNextLevel := floorTimesOnePointFive char.xpToNextLevel,
      maxHealth := newMaxHealth,
      maxMana := newMaxMana,
      maxStamina := newMaxStamina,
      health := newMaxHealth,
      mana := newMaxMana,
      stamina := newMaxStamina }
  { ui with
    gameState :=
      { ui.gameState with
        scenario := { ui.gameState.scenario with character := updatedCharacter } },
    isLevelingUp := false }

/-! ## The incremental response assembler

After every streamed fragment the source runs the tolerant pattern
match
`accumulatedJson.match(/"narrative"\s*:\s*"((?:\\.|[^"\\])*)"/)`
on the whole buffer and, when the capture is non-empty, tries
`JSON.parse` on the re-quoted capture, ignoring any parse error.  The
regular expression is concrete, so it is modelled by a direct scanner:
the pattern anchors on a literal `"narrative"` key, optional whitespace,
a colon, optional whitespace, an opening quote, a run of units (an
escaped pair `\\.` or a single character that is neither a quote nor a
backslash) and a mandatory closing quote. -/

/-- The opening-brace character (written by code to keep braces out of
string literals). -/
def lbraceChar : Char := Char.ofNat 123

/-- The closing-brace character. -/
def rbraceChar : Char := Char.ofNat 125

/-- JavaScript regex `\s` whitespace (the ASCII part; the exotic Unicode
space characters never occur in the streamed JSON). -/
def isJsWhitespace (c : Char) : Bool :=
  c == ' ' || c == '\t' || c == '\n' || c == '\r' ||
    c == Char.ofNat 11 || c == Char.ofNat 12

/-- Drop leading regex whitespace. -/
def dropJsWs : List Char → List Char
  | [] => []
  | c :: rest => if isJsWhitespace c then dropJsWs rest else c :: rest

/-- The span matcher for `((?:\\.|[^"\\])*)"`: starting right after the
opening quote, greedily consume units — an escape pair (whose second
character may not be a line terminator, since `.` does not match those)
or a plain non-quote non-backslash character — and demand a closing
quote, returning the raw (still escaped) capture.  `none` models a
failed match at this start position. -/
def scanQuotedSpan : List Char → Option (List Char)
  | [] => none
  | '"' :: _ => some []
  | '\\' :: d :: rest =>
      if d == '\n' || d == '\r' then none
      else (scanQuotedSpan rest).map (fun b => '\\' :: d :: b)
  | '\\' :: [] => none
  | c :: rest => (scanQuotedSpan rest).map (fun b => c :: b)

/-- Try to match `"narrative"\s*:\s*"` at the head of the input,
returning the remainder after the opening quote. -/
def stripNarrativeKey (cs : List Char) : Option (List Char) :=
  let key := "\"narrative\"".data
  if cs.take key.length == key then
    match dropJsWs (cs.drop key.length) with
    | ':' :: cs₂ =>
        match dropJsWs cs₂ with
        | '"' :: cs₃ => some cs₃
        | _ => none
    | _ => none
  else none

/-- The full regex search: try each start position from the left, as the
backtracking engine does, and return the first successful capture. -/
def findNarrativeCapture : List Char → Option (List Char)
  | [] => none
  | c :: rest =>
      match stripNarrativeKey (c :: rest) with
      | some afterQuote =>
          match scanQuotedSpan afterQuote with
          | some body => some body
          | none => findNarrativeCapture rest
      | none => findNarrativeCapture rest

/-- Single-character JSON string escapes. -/
def escChar (e : Char) : Option Char :=
  if e == '"' then some '"'
  else if e == '\\' then some '\\'
  else if e == '/' then some '/'
  else if e == 'b' then some (Char.ofNat 8)
  else if e == 'f' then some (Char.ofNat 12)
  else if e == 'n' then some '\n'
  else if e == 'r' then some '\r'
  else if e == 't' then some '\t'
  else none

/-- Hexadecimal digit value. -/
def hexDigit (c : Char) : Option Nat :=
  if c.isDigit then some (c.toNat - 48)
  else if 97 ≤ c.toNat then (if c.toNat ≤ 102 then some (c.toNat - 87) else none)
  else if 65 ≤ c.toNat then (if c.toNat ≤ 70 then some (c.toNat - 55) else none)
  else none

/-- Parse a JSON string body up to and including the closing quote,
returning the decoded characters and the remainder.  Raw control
characters, bad escapes and a missing closing quote are rejected, as by
`JSON.parse`. -/
def parseJsonStringChars : List Char → Option (List Char × List Char)
  | [] => none
  | '"' :: rest => some ([], rest)
  | '\\' :: e :: rest =>
      if e == 'u' then
        match rest with
        | h₁ :: h₂ :: h₃ :: h₄ :: rest₂ =>
            match hexDigit h₁, hexDigit h₂, hexDigit h₃, hexDigit h₄ with
            | some a, some b, some c, some d =>
                (parseJsonStringChars rest₂).map
                  (fun p => (Char.ofNat (((a * 16 + b) * 16 + c) * 16 + d) :: p.1, p.2))
            | _, _, _, _ => none
        | _ => none
      else
        match escChar e with
        | some k => (parseJsonStringChars rest).map (fun p => (k :: p.1, p.2))
        | none => none
  | '\\' :: [] => none
  | c :: rest =>
      if c.toNat < 32 then none
      else (parseJsonStringChars rest).map (fun p => (c :: p.1, p.2))

/-- `JSON.parse` applied to the re-quoted capture (`'"' + capture + '"'`):
it succeeds exactly when the capture followed by a closing quote decodes
as one complete JSON string with nothing after it. -/
def decodeQuotedString (body : List Char) : Option (List Char) :=
  match parseJsonStringChars (body ++ ['"']) with
  | some (decoded, []) => some decoded
  | _ => none

/-- The per-fragment best-effort narrative preview: the tolerant match
followed by the non-empty-capture test and the forgiving decode.  `none`
means the fragment causes no preview update. -/
def extractNarrativePreview (buffer : String) : Option String :=
  match findNarrativeCapture buffer.data with
  | some captured =>
      if captured.isEmpty then none
      else
        match decodeQuotedString captured with
        | some decoded => some (String.mk decoded)
        | none => none
  | none => none

/-- The successive accumulator buffers seen while folding the stream. -/
def runningBuffers : List String → String → List String
  | [], _ => []
  | c :: rest, acc => (acc ++ c) :: runningBuffers rest (acc ++ c)

/-- The preview update attempted after each fragment. -/
def previewUpdates (chunks : List String) : List (Option String) :=
  (runningBuffers chunks "").map extractNarrativePreview

/-! ## A model of `JSON.parse`

A recursive-descent parser over the character list, mirroring the JSON
grammar accepted by `JSON.parse`.  Recursion is bounded by a fuel
parameter; every nested parse consumes input, so `2 * length + 2` units
of fuel always suffice and the bound is never the reason a parse fails.
Number literals are validated syntactically; the `exact` flag records
whether the literal is a plain integer (the only numeric shape the
per-turn schema produces), and only such literals have their value
modelled. -/

inductive Json where
  | null
  | bool (b : Bool)
  | num (n : Int) (exact : Bool)
  | str (s : String)
  | arr (elems : List Json)
  | obj (members : List (String × Json))
deriving Repr

/-- JSON (RFC 8259) insignificant whitespace. -/
def isJsonWs (c : Char) : Bool :=
  c == ' ' || c == '\t' || c == '\n' || c == '\r'

/-- Drop leading JSON whitespace. -/
def skipJsonWs : List Char → List Char
  | [] => []
  | c :: rest => if isJsonWs c then skipJsonWs rest else c :: rest

/-- Take a maximal run of decimal digits. -/
def takeDigits : List Char → List Char × List Char
  | [] => ([], [])
  | c :: rest =>
      if c.isDigit then
        let p := takeDigits rest
        (c :: p.1, p.2)
      else ([], c :: rest)

/-- Digit-list value. -/
def digitsToNat (ds : List Char) : Nat :=
  ds.foldl (fun acc c => acc * 10 + (c.toNat - 48)) 0

/-- An optionally signed non-empty digit run (the exponent part). -/
def parseSignedDigits (cs : List Char) : Option (List Char) :=
  let cs₁ :=
    match cs with
    | '+' :: r => r
    | '-' :: r => r
    | _ => cs
  let p := takeDigits cs₁
  if p.1.isEmpty then none else some p.2

/-- Parse a JSON number literal: optional minus, an integer part without
a leading zero, optional fraction, optional exponent. -/
def parseNumber (cs : List Char) : Option (Json × List Char) :=
  let signed :=
    match cs with
    | '-' :: rest => (true, rest)
    | _ => (false, cs)
  let intPart := takeDigits signed.2
  if intPart.1.isEmpty then none
  else if intPart.1.length > 1 && intPart.1.head? == some '0' then none
  else
    let fracPart :=
      match intPart.2 with
      | '.' :: rest =>
          let p := takeDigits rest
          (some p.1, p.2)
      | _ => (none, intPart.2)
    match fracPart.1 with
    | some fd =>
        if fd.isEmpty then none
        else
          -- fractional literal: accepted, value not modelled exactly
          match fracPart.2 with
          | c :: rest =>
              if c == 'e' || c == 'E' then
                (parseSignedDigits rest).map (fun r => (Json.num 0 false, r))
              else some (Json.num 0 false, fracPart.2)
          | [] => some (Json.num 0 false, [])
    | none =>
        let n : Int :=
          if signed.1 then -(digitsToNat intPart.1 : Int) else (digitsToNat intPart.1 : Int)
        match fracPart.2 with
        | c :: rest =>
            if c == 'e' || c == 'E' then
              (parseSignedDigits rest).map (fun r => (Json.num 0 false, r))
            else some (Json.num n true, fracPart.2)
        | [] => some (Json.num n true, [])

mutual

/-- Parse one JSON value (leading whitespace allowed). -/
def parseJsonValue (fuel : Nat) (cs₀ : List Char) : Option (Json × List Char) :=
  match fuel with
  | 0 => none
  | Nat.succ f =>
      let cs := skipJsonWs cs₀
      if cs.take 4 == "null".data then some (Json.null, cs.drop 4)
      else if cs.take 4 == "true".data then some (Json.bool true, cs.drop 4)
      else if cs.take 5 == "false".data then some (Json.bool false, cs.drop 5)
      else
        match cs with
        | [] => none
        | c :: rest =>
            if c == '"' then
              (parseJsonStringChars rest).map (fun p => (Json.str (String.mk p.1), p.2))
            else if c == '[' then
              match skipJsonWs rest with
              | ']' :: rest₂ => some (Json.arr [], rest₂)
              | _ => (parseJsonElems f rest).map (fun p => (Json.arr p.1, p.2))
            else if c == lbraceChar then
              match skipJsonWs rest with
              | d :: rest₂ =>
                  if d == rbraceChar then some (Json.obj [], rest₂)
                  else (parseJsonMembers f rest).map (fun p => (Json.obj p.1, p.2))
              | [] => none
            else if c == '-' || c.isDigit then parseNumber cs
            else none

/-- Parse the elements of a non-empty array up to the closing bracket. -/
def parseJsonElems (fuel : Nat) (cs : List Char) : Option (List Json × List Char) :=
  match fuel with
  | 0 => none
  | Nat.succ f =>
      match parseJsonValue f cs with
      | none => none
      | some (v, rest) =>
          match skipJsonWs rest with
          | ',' :: rest₂ => (parseJsonElems f rest₂).map (fun p => (v :: p.1, p.2))
          | ']' :: rest₂ => some ([v], rest₂)
          | _ => none

/-- Parse the members of a non-empty object up to the closing brace. -/
def parseJsonMembers (fuel : Nat) (cs : List Char) :
    Option (List (String × Json) × List Char) :=
  match fuel with
  | 0 => none
  | Nat.succ f =>
      match skipJsonWs cs with
      | '"' :: rest =>
          match parseJsonStringChars rest with
          | some (k, rest₁) =>
              match skipJsonWs rest₁ with
              | ':' :: rest₂ =>
                  match parseJsonValue f rest₂ with
                  | some (v, rest₃) =>
                      match skipJsonWs rest₃ with
                      | ',' :: rest₄ =>
                          (parseJsonMembers f rest₄).map
                            (fun p => ((String.mk k, v) :: p.1, p.2))
                      | d :: rest₄ =>
                          if d == rbraceChar then some ([(String.mk k, v)], rest₄)
                          else none
                      | [] => none
                  | none => none
              | _ => none
          | none => none
      | _ => none

end

/-- `JSON.parse`: one value, possibly surrounded by whitespace, with
nothing after it. -/
def Json.parse (input : String) : Option Json :=
  match parseJsonValue (2 * input.length + 2) input.data with
  | some (v, rest) => if (skipJsonWs rest).isEmpty then some v else none
  | none => none

/-- Property access on a parsed object: with duplicate keys the later
member wins, as in `JSON.parse`. -/
def Json.getField (j : Json) (key : String) : Option Json :=
  match j with
  | .obj ms => (ms.reverse.find? (fun m => m.1 == key)).map (fun m => m.2)
  | _ => none

def Json.getStr : Json → Option String
  | .str s => some s
  | _ => none

def Json.getBool : Json → Option Bool
  | .bool b => some b
  | _ => none

/-- The integer value of a numeric field (the schema produces only plain
integer literals). -/
def Json.getInt : Json → Option Int
  | .num n true => some n
  | _ => none

def Json.getArr : Json → Option (List Json)
  | .arr xs => some xs
  | _ => none

/-- `response.narrative` after the final full-buffer `JSON.parse`. -/
def finalParsedNarrative (buffer : String) : Option String :=
  (Json.parse buffer).bind (fun j => (j.getField ("narrative")).bind Json.getStr)

/-! ## Typing the parsed turn result

The source casts the parsed JSON to the `GeminiResponse` interface
without a runtime check; the generation service enforces the per-turn
schema, so well-formed streams always fit.  The conversion below types
a schema-conforming document (treating a JSON `null` like an absent
optional field, as the truthiness tests in the reconciler do) and routes
any schema-violating document to the turn-failure path. -/

def questStatusFromString (s : String) : Option QuestStatus :=
  if s == "active" then some QuestStatus.active
  else if s == "completed" then some QuestStatus.completed
  else if s == "failed" then some QuestStatus.failed
  else none

def itemRarityFromString (s : String) : Option ItemRarity :=
  if s == "Common" then some ItemRarity.common
  else if s == "Uncommon" then some ItemRarity.uncommon
  else if s == "Rare" then some ItemRarity.rare
  else if s == "Epic" then some ItemRarity.epic
  else if s == "Legendary" then some ItemRarity.legendary
  else none

def itemTypeFromString (s : String) : Option ItemType :=
  if s == "Consumable" then some ItemType.consumable
  else if s == "Quest Item" then some ItemType.questItem
  else if s == "Equipment" then some ItemType.equipment
  else if s == "Tome" then some ItemType.tome
  else none

def loreUpdateTypeFromString (s : String) : Option LoreUpdateType :=
  if s == "location" then some LoreUpdateType.location
  else if s == "character" then some LoreUpdateType.character
  else if s == "knowledge" then some LoreUpdateType.knowledge
  else none

/-- An optional field: absent or `null` yields `none`; a present field
must convert. -/
def optConvField {α : Type} (j : Json) (key : String) (conv : Json → Option α) :
    Option (Option α) :=
  match j.getField key with
  | none => some none
  | some Json.null => some none
  | some v => (conv v).map some

/-- An optional integer field. -/
def optIntField (j : Json) (key : String) : Option (Option Int) :=
  optConvField j key Json.getInt

def toItemEffect (j : Json) : Option ItemEffect :=
  match (j.getField ("stat")).bind Json.getStr,
        (j.getField ("value")).bind Json.getInt with
  | some st, some v => some ⟨st, v⟩
  | _, _ => none

def toItem (j : Json) : Option Item :=
  ((j.getField ("name")).bind Json.getStr).bind fun name =>
  ((j.getField ("description")).bind Json.getStr).bind fun description =>
  (((j.getField ("rarity")).bind Json.getStr).bind itemRarityFromString).bind fun rarity =>
  (((j.getField ("type")).bind Json.getStr).bind itemTypeFromString).bind fun ty =>
  ((j.getField ("usable")).bind Json.getBool).bind fun usable =>
  (((j.getField ("effects")).bind Json.getArr).bind (List.mapM toItemEffect)).bind fun effects =>
  some { name := name, description := description, rarity := rarity,
         type := ty, usable := usable, effects := effects }

def toDialogueLine (j : Json) : Option DialogueLine :=
  match (j.getField ("characterName")).bind Json.getStr,
        (j.getField ("text")).bind Json.getStr with
  | some n, some t => some ⟨n, t⟩
  | _, _ => none

/-- The number of nodes of a JSON value (used as conversion fuel; it
always dominates the recursion depth of the objective-tree converter). -/
def jsonSize : Json → Nat
  | .null => 1
  | .bool _ => 1
  | .num _ _ => 1
  | .str _ => 1
  | .arr xs => 1 + jsonListSize xs
  | .obj ms => 1 + jsonMembersSize ms
where
  jsonListSize : List Json → Nat
    | [] => 0
    | j :: rest => 1 + jsonSize j + jsonListSize rest
  jsonMembersSize : List (String × Json) → Nat
    | [] => 0
    | m :: rest => 1 + jsonSize m.2 + jsonMembersSize rest

mutual

/-- Objective trees from JSON, fuel-bounded (callers pass `jsonSize`,
which always dominates the recursion depth). -/
def toObjectiveFuel : Nat → Json → Option Objective
  | 0, _ => none
  | Nat.succ f, j =>
      match (j.getField ("text")).bind Json.getStr,
            (j.getField ("isCompleted")).bind Json.getBool with
      | some t, some c =>
          match j.getField ("subObjectives") with
          | none => some (Objective.mk t c none)
          | some Json.null => some (Objective.mk t c none)
          | some (Json.arr subs) =>
              (toObjectiveListFuel f subs).map (fun l => Objective.mk t c (some l))
          | some _ => none
      | _, _ => none

/-- List version of `toObjectiveFuel`. -/
def toObjectiveListFuel : Nat → List Json → Option (List Objective)
  | _, [] => some []
  | 0, _ :: _ => none
  | Nat.succ f, j :: rest =>
      match toObjectiveFuel (Nat.succ f) j, toObjectiveListFuel f rest with
      | some o, some l => some (o :: l)
      | _, _ => none

end

def toQuest (j : Json) : Option Quest :=
  ((j.getField ("title")).bind Json.getStr).bind fun title =>
  ((j.getField ("description")).bind Json.getStr).bind fun description =>
  (((j.getField ("status")).bind Json.getStr).bind questStatusFromString).bind fun status =>
  (((j.getField ("objectives")).bind Json.getArr).bind
      (toObjectiveListFuel (jsonSize j))).bind fun objectives =>
  some { title := title, description := description, status := status,
         objectives := objectives }

def toQuestUpdate (j : Json) : Option QuestUpdate :=
  match (j.getField ("questTitle")).bind Json.getStr,
        (j.getField ("objectiveText")).bind Json.getStr with
  | some qt, some ot =>
      (optConvField j ("newStatus")
          (fun v => (Json.getStr v).bind questStatusFromString)).map
        (fun ns => ⟨qt, ot, ns⟩)
  | _, _ => none

def toCharacterUpdate (j : Json) : Option CharacterUpdate :=
  match optIntField j ("health"), optIntField j ("mana"),
        optIntField j ("stamina"), optIntField j ("xpGained") with
  | some h, some m, some st, some x => some ⟨h, m, st, x⟩
  | _, _, _, _ => none

def toLoreUpdate (j : Json) : Option LoreUpdate :=
  match ((j.getField ("type")).bind Json.getStr).bind loreUpdateTypeFromString,
        (j.getField ("name")).bind Json.getStr,
        (j.getField ("description")).bind Json.getStr with
  | some ty, some n, some d => some ⟨ty, n, d⟩
  | _, _, _ => none

def toGeminiResponse (j : Json) : Option GeminiResponse :=
  ((j.getField ("narrative")).bind Json.getStr).bind fun narrative =>
  ((j.getField ("newLocation")).bind Json.getStr).bind fun newLocation =>
  (((j.getField ("updatedInventory")).bind Json.getArr).bind
      (List.mapM toItem)).bind fun updatedInventory =>
  ((j.getField ("newObjective")).bind Json.getStr).bind fun newObjective =>
  ((j.getField ("isGameOver")).bind Json.getBool).bind fun isGameOver =>
  ((j.getField ("gameOverMessage")).bind Json.getStr).bind fun gameOverMessage =>
  (optConvField j ("dialogue")
      (fun v => (Json.getArr v).bind (List.mapM toDialogueLine))).bind fun dialogue =>
  (optConvField j ("newQuest") toQuest).bind fun newQuest =>
  (optConvField j ("questUpdate") toQuestUpdate).bind fun questUpdate =>
  (optConvField j ("characterUpdate") toCharacterUpdate).bind fun characterUpdate =>
  (optConvField j ("loreUpdate") toLoreUpdate).bind fun loreUpdate =>
  (match j.getField ("requestImageGeneration") with
   | none => some false
   | some Json.null => some false
   | some v => Json.getBool v).bind fun requestImageGeneration =>
  some { narrative := narrative, dialogue := dialogue,
         newLocation := newLocation, updatedInventory := updatedInventory,
         newObjective := newObjective, newQuest := newQuest,
         questUpdate := questUpdate, isGameOver := isGameOver,
         gameOverMessage := gameOverMessage, characterUpdate := characterUpdate,
         loreUpdate := loreUpdate, requestImageGeneration := requestImageGeneration }

/-- The final full-buffer parse plus the typed cast. -/
def parseGeminiResponse (buffer : String) : Option GeminiResponse :=
  (Json.parse buffer).bind toGeminiResponse

/-! ## The whole per-turn pipeline -/

/-- `executeAction`: the submit gate, then the stream fold (the per-chunk
preview updates touch only the placeholder narrator entry, which the
final assignment overwrites — they are modelled by `previewUpdates`),
then the full-buffer parse, then either reconciliation or the failure
path.  `chunks` are the streamed fragments and `errorText` the message
of the exception thrown on failure; the returned flag records whether
the submission passed the gate. -/
def executeActionModel (ui : UiState) (action : String) (chunks : List String)
    (errorText : String) : UiState × Bool :=
  if actionGated ui action then (ui, false)
  else
    match parseGeminiResponse (String.join chunks) with
    | some resp => (reconcileTurn ui action resp, true)
    | none => (failTurn ui action errorText, true)

/-- `handleUseItem`: its own gate (including usability), then a turn with
the canned `use "item"` action. -/
def handleUseItem (ui : UiState) (item : Item) (chunks : List String)
    (errorText : String) : UiState × Bool :=
  if !item.usable || ui.isLoading || ui.gameState.isGameOver ||
      ui.proposedUpdate.isSome || ui.isLevelingUp then (ui, false)
  else executeActionModel ui ("use \"" ++ item.name ++ "\"") chunks errorText

/-! ## Faction sigil generation (world-generation pipeline) -/

/-- `generateSigilImage`: the whole body is wrapped in a catch that
returns the empty string, so a service failure or a response with no
image part degrades to "no emblem".  `outcome` stands for the external
image service's result (`none` = failure or no image part). -/
def generateSigilImageResult (outcome : Option String) : String :=
  match outcome with
  | some base64ImageBytes => "data:image/png;base64," ++ base64ImageBytes
  | none => ""

/-- One iteration of the sigil loop: store the (possibly empty) result
on the faction. -/
def carveSigil (f : Faction) (outcome : Option String) : Faction :=
  { f with sigilImageUrl := generateSigilImageResult outcome }

/-- The sequential sigil loop of `handleAcceptFoundation`: one
independently fallible generation per faction (faction names are unique
keys, so the by-name state update is positional here). -/
def carveSigils : List Faction → List (Option String) → List Faction
  | f :: fs, o :: os => carveSigil f o :: carveSigils fs os
  | fs, [] => fs
  | [], _ :: _ => []

/-- The factions-review Accept & Continue gate: disabled while loading
or while some faction's sigil URL is still empty (`!f.sigilImageUrl`),
and when no factions exist yet. -/
def acceptFactionsDisabled (isLoading : Bool) (factions : Option (List Faction)) :
    Bool :=
  isLoading ||
    (match factions with
     | some fs => fs.any (fun f => f.sigilImageUrl == "")
     | none => true)

/-! ## The game screen as an event-step machine (for temporal claims) -/

/-- The user-driven events of the game screen. -/
inductive GameEvent where
  | submitAction (action : String) (chunks : List String) (errorText : String)
  | useItem (item : Item) (chunks : List String) (errorText : String)
  | acceptLore
  | rejectLore
  | confirmLevelUp (inc : StatIncreases)

/-- One step: the next UI state, plus whether a player action passed the
submit gate in this step. -/
def stepEvent (ui : UiState) : GameEvent → UiState × Bool
  | .submitAction a chunks e => executeActionModel ui a chunks e
  | .useItem it chunks e => handleUseItem ui it chunks e
  | .acceptLore => (handleAcceptUpdate ui, false)
  | .rejectLore => (handleRejectUpdate ui, false)
  | .confirmLevelUp inc => (handleLevelUpConfirm ui inc, false)

/-- Run a sequence of events. -/
def runEvents (ui : UiState) : List GameEvent → UiState
  | [] => ui
  | e :: rest => runEvents (stepEvent ui e).1 rest

/-- Was any player action accepted somewhere along the event sequence? -/
def anyActionAccepted (ui : UiState) : List GameEvent → Bool
  | [] => false
  | e :: rest =>
      (stepEvent ui e).2 || anyActionAccepted (stepEvent ui e).1 rest

/-! ## Concrete fixtures (used to instantiate the theorems) -/

/-- A level-1 character 5 xp short of the level-up threshold. -/
def sampleCharacter : Character :=
  { name := "Aria", backstory := "b", health := 100, maxHealth := 100,
    mana := 50, maxMana := 50, stamina := 60, maxStamina := 60,
    level := 1, xp := 95, xpToNextLevel := 100 }

/-- A small lore value with one known location and one knowledge line. -/
def sampleLore : Lore :=
  { worldName := "W", coreConcept := "c", factions := [],
    locations := [{ name := "Town", description := "d" }],
    characters := [], knowledge := ["Town: d"] }

def sampleScenario : Scenario :=
  { character := sampleCharacter,
    setting := { name := "Town", description := "start" },
    goal := "g", objective := "o" }

def sampleState : GameState :=
  { lore := sampleLore, scenario := sampleScenario, currentLocation := "Town",
    inventory := [],
    storyLog := [{ type := .narrator, text := "start", characterName := none }],
    objective := "o", quests := [], isGameOver := false, gameOverMessage := "" }

/-- An idle UI state: nothing loading, nothing staged, no level-up. -/
def sampleUi : UiState :=
  { gameState := sampleState, isLoading := false, proposedUpdate := none,
    isLevelingUp := false }

/-- A minimal turn result that changes nothing interesting. -/
def sampleResponse : GeminiResponse :=
  { narrative := "n", dialogue := none, newLocation := "Town",
    updatedInventory := [], newObjective := "o", newQuest := none,
    questUpdate := none, isGameOver := false, gameOverMessage := "",
    characterUpdate := none, loreUpdate := none,
    requestImageGeneration := false }

/-- A turn result awarding 10 xp (95 + 10 crosses the 100 threshold). -/
def xpResponse : GeminiResponse :=
  { sampleResponse with
    characterUpdate := some { health := none, mana := none, stamina := none,
                              xpGained := some 10 } }

/-- The sample state after the game has ended. -/
def gameOverUi : UiState :=
  { sampleUi with gameState := { sampleState with isGameOver := true } }

end Adventure

namespace Adventure

/-! # Theorems -/

/-- C1 counterexample: after the first fragment the buffer is
`{"narrative":"Hel` with no closing quote, so the tolerant pattern match
fails and there is no preview update — the preview is not `"Hel"` as the
claim states. -/
theorem first_fragment_gives_no_preview :
    extractNarrativePreview ("\x7b\"narrative\":\"Hel") = none := by
  rfl

/-- C1 amended: feeding the three fragments yields preview updates
(none, none, "Hello world") — the matcher needs the closing quote, so
the first two fragments cause no update and the third sets the preview —
the final full-buffer parse succeeds (no error surfaced) and its
narrative field is exactly "Hello world". -/
theorem streaming_assembler_on_example_fragments :
    previewUpdates
        ["\x7b\"narrative\":\"Hel", "lo wor", "ld\",\"newLocation\":\"X\"\x7d"] =
      [none, none, some ("Hello world")] ∧
    (Json.parse (String.join
        ["\x7b\"narrative\":\"Hel", "lo wor", "ld\",\"newLocation\":\"X\"\x7d"])).isSome
      = true ∧
    finalParsedNarrative (String.join
        ["\x7b\"narrative\":\"Hel", "lo wor", "ld\",\"newLocation\":\"X\"\x7d"]) =
      some ("Hello world") := by
  refine ⟨?_, ?_, ?_⟩ <;> rfl

/-- C2: when the accumulated stream buffer fails to parse as JSON, the
turn fails exactly once: the narrator entry created for this turn is
replaced by the error text, the player's action entry remains, and every
other component of the state — inventory, location, quests, objective,
character, game-over flag, lore, staged proposal, pending level-up — is
byte-for-byte the prior one. -/
theorem malformed_buffer_aborts_turn
    (ui : UiState) (action : String) (chunks : List String) (errorText : String)
    (hgate : actionGated ui action = false)
    (hparse : Json.parse (String.join chunks) = none) :
    executeActionModel ui action chunks errorText =
      ({ ui with
          gameState :=
            { ui.gameState with
              storyLog := ui.gameState.storyLog ++
                [{ type := .player, text := action, characterName := none },
                 { type := .narrator, text := errorText, characterName := none }] },
          isLoading := false }, true) := by
  simp [executeActionModel, hgate, parseGeminiResponse, hparse, failTurn]

/-- Witness for C2 at a concrete state and the truncated buffer `{`. -/
theorem malformed_buffer_aborts_turn_witness :
    actionGated sampleUi ("look") = false ∧
    Json.parse (String.join ["\x7b"]) = none ∧
    executeActionModel sampleUi ("look") ["\x7b"] ("boom") =
      ({ sampleUi with
          gameState :=
            { sampleUi.gameState with
              storyLog := sampleUi.gameState.storyLog ++
                [{ type := .player, text := "look", characterName := none },
                 { type := .narrator, text := "boom", characterName := none }] },
          isLoading := false }, true) :=
  ⟨by rfl, by rfl,
   malformed_buffer_aborts_turn sampleUi ("look") ["\x7b"] ("boom") (by rfl) (by rfl)⟩

/-- C4 counterexample: a turn result carrying a new quest whose status
is `failed` is appended with status `failed`, not forced to `active`. -/
theorem new_quest_status_not_forced :
    (reconcileTurn sampleUi ("go")
        { sampleResponse with
          newQuest := some { title := "T", description := "D",
                             status := QuestStatus.failed,
                             objectives := [Objective.mk ("O") false none] } }
      ).gameState.quests =
      [{ title := "T", description := "D", status := QuestStatus.failed,
         objectives := [Objective.mk ("O") false none] }] := by
  rfl

/-- C4 amended: the reconciler appends the `newQuest` to the end of the
quest list exactly as carried by the turn result (no status override;
the schema merely instructs the model to send `active`); a `questUpdate`
in the same turn is applied afterwards to the extended list. -/
theorem new_quest_appended_verbatim
    (ui : UiState) (action : String) (resp : GeminiResponse) (nq : Quest)
    (hq : resp.newQuest = some nq) :
    (resp.questUpdate = none →
       (reconcileTurn ui action resp).gameState.quests =
         ui.gameState.quests ++ [nq]) ∧
    (∀ u, resp.questUpdate = some u →
       (reconcileTurn ui action resp).gameState.quests =
         applyQuestUpdate u (ui.gameState.quests ++ [nq])) := by
  constructor
  · intro h
    simp [reconcileTurn, hq, h]
  · intro u h
    simp [reconcileTurn, hq, h]

/-- Witness for C4 amended: the `failed` quest is appended verbatim. -/
theorem new_quest_appended_verbatim_witness :
    ({ sampleResponse with
        newQuest := some { title := "T", description := "D",
                           status := QuestStatus.failed,
                           objectives := [Objective.mk ("O") false none] }
      } : GeminiResponse).newQuest =
      some { title := "T", description := "D", status := QuestStatus.failed,
             objectives := [Objective.mk ("O") false none] } ∧
    (reconcileTurn sampleUi ("go")
        { sampleResponse with
          newQuest := some { title := "T", description := "D",
                             status := QuestStatus.failed,
                             objectives := [Objective.mk ("O") false none] } }
      ).gameState.quests =
      sampleUi.gameState.quests ++
        [{ title := "T", description := "D", status := QuestStatus.failed,
           objectives := [Objective.mk ("O") false none] }] :=
  ⟨rfl,
   (new_quest_appended_verbatim sampleUi ("go") _ _ rfl).1 rfl⟩

/-- C9 counterexample: after a failed emblem generation for the only
faction its sigil URL is empty, and the factions-review continue button
is disabled — the user cannot proceed past the factions stage. -/
theorem emblem_failure_blocks_factions_stage :
    acceptFactionsDisabled false
      (some (carveSigils
        [{ name := "Order", description := "d", leader := "l",
           headquarters := "hq", ideology := "i", relationships := "r",
           sigilImageUrl := "" }] [none])) = true := by
  rfl

/-- C9 amended: a failed emblem generation degrades to the empty emblem
and is isolated — the remaining factions are still processed, with
results depending only on their own outcomes, and the generation loop
finishes for every faction — but the factions-review continue button is
disabled exactly while loading or while some faction's emblem is empty,
so the user cannot proceed while any faction lacks an emblem. -/
theorem emblem_failure_isolated_but_blocks_continue :
    generateSigilImageResult none = "" ∧
    (∀ (f : Faction) (fs : List Faction) (os : List (Option String)),
       carveSigils (f :: fs) (none :: os) = carveSigil f none :: carveSigils fs os) ∧
    (∀ (fs : List Faction) (os : List (Option String)),
       (carveSigils fs os).length = fs.length) ∧
    (∀ (b : Bool) (fs : List Faction),
       acceptFactionsDisabled b (some fs) =
         (b || fs.any (fun f => f.sigilImageUrl == ""))) ∧
    (∀ (f : Faction) (fs : List Faction), f ∈ fs → f.sigilImageUrl = "" →
       acceptFactionsDisabled false (some fs) = true) := by
  refine ⟨rfl, fun f fs os => rfl, ?_, ?_, ?_⟩
  · intro fs
    induction fs with
    | nil => intro os; cases os <;> rfl
    | cons f fs ih =>
        intro os
        cases os with
        | nil => rfl
        | cons o os => simp [carveSigils, ih]
  · intro b fs
    cases b <;> simp [acceptFactionsDisabled]
  · intro f fs hmem hurl
    have hany : fs.any (fun f => f.sigilImageUrl == "") = true :=
      List.any_eq_true.mpr ⟨f, hmem, by simp [hurl]⟩
    simp [acceptFactionsDisabled, hany]

/-- Witness for C9 amended at a concrete one-faction list. -/
theorem emblem_failure_isolated_witness :
    ({ name := "Order", description := "d", leader := "l",
       headquarters := "hq", ideology := "i", relationships := "r",
       sigilImageUrl := "" } : Faction) ∈
      [({ name := "Order", description := "d", leader := "l",
          headquarters := "hq", ideology := "i", relationships := "r",
          sigilImageUrl := "" } : Faction)] ∧
    ({ name := "Order", description := "d", leader := "l",
       headquarters := "hq", ideology := "i", relationships := "r",
       sigilImageUrl := "" } : Faction).sigilImageUrl = "" ∧
    acceptFactionsDisabled false
      (some [({ name := "Order", description := "d", leader := "l",
                headquarters := "hq", ideology := "i", relationships := "r",
                sigilImageUrl := "" } : Faction)]) = true :=
  ⟨List.mem_singleton.mpr rfl, rfl,
   emblem_failure_isolated_but_blocks_continue.2.2.2.2 _ _
     (List.mem_singleton.mpr rfl) rfl⟩

/-- C10: `xpGained` is applied through a truthiness test: a present
non-zero gain — negative included — is added to the xp, and the pending
level-up flag is raised exactly when the new xp reaches the threshold;
a zero or absent gain leaves the xp untouched and performs no level-up
check. -/
theorem xp_gain_truthiness :
    (∀ (ui : UiState) (action : String) (resp : GeminiResponse)
        (cu : CharacterUpdate) (g : Int),
       ui.isLevelingUp = false →
       resp.characterUpdate = some cu →
       cu.xpGained = some g → g ≠ 0 →
       (reconcileTurn ui action resp).gameState.scenario.character.xp =
           ui.gameState.scenario.character.xp + g ∧
       ((reconcileTurn ui action resp).isLevelingUp = true ↔
           ui.gameState.scenario.character.xp + g ≥
             ui.gameState.scenario.character.xpToNextLevel)) ∧
    (∀ (ui : UiState) (action : String) (resp : GeminiResponse),
       ui.isLevelingUp = false →
       (resp.characterUpdate = none ∨
         ∃ cu, resp.characterUpdate = some cu ∧
           (cu.xpGained = none ∨ cu.xpGained = some 0)) →
       (reconcileTurn ui action resp).gameState.scenario.character.xp =
           ui.gameState.scenario.character.xp ∧
       (reconcileTurn ui action resp).isLevelingUp = false) := by
  constructor
  · intro ui action resp cu g hlvl hcu hg hg0
    constructor
    · simp [reconcileTurn, hcu, hg, hg0]
    · by_cases hcmp : ui.gameState.scenario.character.xp + g ≥
          ui.gameState.scenario.character.xpToNextLevel
      · simp [reconcileTurn, hcu, hg, hg0, hlvl, hcmp]
      · simp [reconcileTurn, hcu, hg, hg0, hlvl, hcmp]
  · intro ui action resp hlvl hz
    rcases hz with hz | ⟨cu, hcu, hx⟩
    · simp [reconcileTurn, hz, hlvl]
    · rcases hx with hx | hx <;> simp [reconcileTurn, hcu, hx, hlvl]

/-- Witness for C10: with a negative gain of −5 the xp drops from 95 to
90 and no level-up is flagged. -/
theorem xp_gain_truthiness_witness :
    sampleUi.isLevelingUp = false ∧
    (reconcileTurn sampleUi ("act")
        { sampleResponse with
          characterUpdate := some { health := none, mana := none,
                                    stamina := none, xpGained := some (-5) } }
      ).gameState.scenario.character.xp =
      sampleUi.gameState.scenario.character.xp + (-5) ∧
    ((reconcileTurn sampleUi ("act")
        { sampleResponse with
          characterUpdate := some { health := none, mana := none,
                                    stamina := none, xpGained := some (-5) } }
      ).isLevelingUp = true ↔
      sampleUi.gameState.scenario.character.xp + (-5) ≥
        sampleUi.gameState.scenario.character.xpToNextLevel) :=
  ⟨rfl,
   (xp_gain_truthiness.1 sampleUi ("act") _ _ (-5) rfl rfl rfl (by decide)).1,
   (xp_gain_truthiness.1 sampleUi ("act") _ _ (-5) rfl rfl rfl (by decide)).2⟩

/-- C6: confirming a pending level-up raises the level by one, carries
the xp overflow (old xp minus old threshold, not a reset to zero),
scales the threshold by 1.5 rounded down, adds the allocated increases
to the maxima and restores health, mana and stamina to the new maxima;
concretely, from xp 95/100 a gain of 10 flags the level-up and brings xp
to 105, and confirming with 50 extra max health yields level 2, xp 5,
threshold 150 and health restored to the new maximum 150. -/
theorem level_up_confirmation :
    (∀ (ui : UiState) (inc : StatIncreases),
       ui.gameState.scenario.character.xp ≥
           ui.gameState.scenario.character.xpToNextLevel →
       ui.isLevelingUp = true →
       (handleLevelUpConfirm ui inc).gameState.scenario.character.level =
           ui.gameState.scenario.character.level + 1 ∧
       (handleLevelUpConfirm ui inc).gameState.scenario.character.xp =
           ui.gameState.scenario.character.xp -
             ui.gameState.scenario.character.xpToNextLevel ∧
       (handleLevelUpConfirm ui inc).gameState.scenario.character.xpToNextLevel =
           floorTimesOnePointFive ui.gameState.scenario.character.xpToNextLevel ∧
       (handleLevelUpConfirm ui inc).gameState.scenario.character.maxHealth =
           ui.gameState.scenario.character.maxHealth + inc.maxHealth ∧
       (handleLevelUpConfirm ui inc).gameState.scenario.character.maxMana =
           ui.gameState.scenario.character.maxMana + inc.maxMana ∧
       (handleLevelUpConfirm ui inc).gameState.scenario.character.maxStamina =
           ui.gameState.scenario.character.maxStamina + inc.maxStamina ∧
       (handleLevelUpConfirm ui inc).gameState.scenario.character.health =
           (handleLevelUpConfirm ui inc).gameState.scenario.character.maxHealth ∧
       (handleLevelUpConfirm ui inc).gameState.scenario.character.mana =
           (handleLevelUpConfirm ui inc).gameState.scenario.character.maxMana ∧
       (handleLevelUpConfirm ui inc).gameState.scenario.character.stamina =
           (handleLevelUpConfirm ui inc).gameState.scenario.character.maxStamina ∧
       (handleLevelUpConfirm ui inc).isLevelingUp = false) ∧
    ((reconcileTurn sampleUi ("act") xpResponse).isLevelingUp = true ∧
     (reconcileTurn sampleUi ("act") xpResponse).gameState.scenario.character.xp
         = 105 ∧
     (handleLevelUpConfirm (reconcileTurn sampleUi ("act") xpResponse)
         ⟨50, 0, 0⟩).gameState.scenario.character.level = 2 ∧
     (handleLevelUpConfirm (reconcileTurn sampleUi ("act") xpResponse)
         ⟨50, 0, 0⟩).gameState.scenario.character.xp = 5 ∧
     (handleLevelUpConfirm (reconcileTurn sampleUi ("act") xpResponse)
         ⟨50, 0, 0⟩).gameState.scenario.character.xpToNextLevel = 150 ∧
     (handleLevelUpConfirm (reconcileTurn sampleUi ("act") xpResponse)
         ⟨50, 0, 0⟩).gameState.scenario.character.maxHealth = 150 ∧
     (handleLevelUpConfirm (reconcileTurn sampleUi ("act") xpResponse)
         ⟨50, 0, 0⟩).gameState.scenario.character.health = 150) := by
  constructor
  · intro ui inc _ _
    refine ⟨?_, ?_, ?_, ?_, ?_, ?_, ?_, ?_, ?_, ?_⟩ <;>
      simp [handleLevelUpConfirm]
  · refine ⟨?_, ?_, ?_, ?_, ?_, ?_, ?_⟩ <;> decide

/-- Witness for C6 at the concrete post-gain state (xp 105 ≥ 100,
level-up pending). -/
theorem level_up_confirmation_witness :
    (reconcileTurn sampleUi ("act") xpResponse).gameState.scenario.character.xp ≥
        (reconcileTurn sampleUi ("act")
          xpResponse).gameState.scenario.character.xpToNextLevel ∧
    (reconcileTurn sampleUi ("act") xpResponse).isLevelingUp = true ∧
    (handleLevelUpConfirm (reconcileTurn sampleUi ("act") xpResponse)
        ⟨50, 0, 0⟩).gameState.scenario.character.level =
      (reconcileTurn sampleUi ("act")
          xpResponse).gameState.scenario.character.level + 1 :=
  ⟨by decide, by decide,
   (level_up_confirmation.1 (reconcileTurn sampleUi ("act") xpResponse)
      ⟨50, 0, 0⟩ (by decide) (by decide)).1⟩

/-- C7: a `loreUpdate` in a turn result is only staged — the reconciler
never touches the lore and records the proposal; rejecting discards the
proposal and leaves the whole game state byte-for-byte unchanged;
accepting merges the entry into locations, characters or knowledge,
de-duplicated by exact name (locations, characters) or by the exact
`name: description` line (knowledge), so accepting an already-present
entry leaves the lore unchanged. -/
theorem lore_update_staging :
    (∀ (ui : UiState) (action : String) (resp : GeminiResponse),
       (reconcileTurn ui action resp).gameState.lore = ui.gameState.lore ∧
       (∀ lu, resp.loreUpdate = some lu →
          (reconcileTurn ui action resp).proposedUpdate = some lu)) ∧
    (∀ ui : UiState,
       (handleRejectUpdate ui).gameState = ui.gameState ∧
       (handleRejectUpdate ui).proposedUpdate = none) ∧
    (∀ (ui : UiState) (pu : LoreUpdate), ui.proposedUpdate = some pu →
       (handleAcceptUpdate ui).proposedUpdate = none ∧
       (pu.type = LoreUpdateType.location →
          (handleAcceptUpdate ui).gameState.lore =
            (if ui.gameState.lore.locations.any (fun l => l.name == pu.name)
             then ui.gameState.lore
             else { ui.gameState.lore with
                    locations := ui.gameState.lore.locations ++
                      [{ name := pu.name, description := pu.description }] })) ∧
       (pu.type = LoreUpdateType.character →
          (handleAcceptUpdate ui).gameState.lore =
            (if ui.gameState.lore.characters.any (fun c => c.name == pu.name)
             then ui.gameState.lore
             else { ui.gameState.lore with
                    characters := ui.gameState.lore.characters ++
                      [{ name := pu.name, description := pu.description }] })) ∧
       (pu.type = LoreUpdateType.knowledge →
          (handleAcceptUpdate ui).gameState.lore =
            (if ui.gameState.lore.knowledge.contains
                  (pu.name ++ ": " ++ pu.description)
             then ui.gameState.lore
             else { ui.gameState.lore with
                    knowledge := ui.gameState.lore.knowledge ++
                      [pu.name ++ ": " ++ pu.description] }))) := by
  refine ⟨?_, ?_, ?_⟩
  · intro ui action resp
    constructor
    · simp [reconcileTurn]
    · intro lu hlu
      simp [reconcileTurn, hlu]
  · intro ui
    exact ⟨rfl, rfl⟩
  · intro ui pu hpu
    refine ⟨by simp [handleAcceptUpdate, hpu], ?_, ?_, ?_⟩ <;>
      (intro ht; simp [handleAcceptUpdate, hpu, ht])

/-- Witness for C7: accepting a location already known by the same name
leaves the lore byte-for-byte unchanged. -/
theorem lore_update_staging_witness :
    ({ sampleUi with
        proposedUpdate :=
          some { type := LoreUpdateType.location, name := "Town",
                 description := "x" } } : UiState).proposedUpdate =
      some { type := LoreUpdateType.location, name := "Town",
             description := "x" } ∧
    (handleAcceptUpdate
        { sampleUi with
          proposedUpdate :=
            some { type := LoreUpdateType.location, name := "Town",
                   description := "x" } }).gameState.lore =
      (if sampleUi.gameState.lore.locations.any (fun l => l.name == "Town")
       then sampleUi.gameState.lore
       else { sampleUi.gameState.lore with
              locations := sampleUi.gameState.lore.locations ++
                [{ name := "Town", description := "x" }] }) :=
  ⟨rfl,
   (lore_update_staging.2.2
      { sampleUi with
        proposedUpdate :=
          some { type := LoreUpdateType.location, name := "Town",
                 description := "x" } }
      { type := LoreUpdateType.location, name := "Town", description := "x" }
      rfl).2.1 rfl⟩

/-- A submission is rejected, with the state untouched, whenever a turn
is outstanding, a level-up is pending, a lore proposal is staged, or the
game is over. -/
theorem executeAction_rejected
    (ui : UiState) (action : String) (chunks : List String) (errorText : String)
    (h : ui.isLoading = true ∨ ui.isLevelingUp = true ∨
         ui.proposedUpdate.isSome = true ∨ ui.gameState.isGameOver = true) :
    executeActionModel ui action chunks errorText = (ui, false) := by
  have hg : actionGated ui action = true := by
    rcases h with h | h | h | h <;> simp [actionGated, h]
  simp [executeActionModel, hg]

/-- Item use is rejected under the same gates. -/
theorem useItem_rejected
    (ui : UiState) (item : Item) (chunks : List String) (errorText : String)
    (h : ui.isLoading = true ∨ ui.isLevelingUp = true ∨
         ui.proposedUpdate.isSome = true ∨ ui.gameState.isGameOver = true) :
    handleUseItem ui item chunks errorText = (ui, false) := by
  rcases h with h | h | h | h <;> simp [handleUseItem, h]

/-- Accepting a lore proposal never touches the game-over flag. -/
theorem handleAcceptUpdate_isGameOver (ui : UiState) :
    (handleAcceptUpdate ui).gameState.isGameOver = ui.gameState.isGameOver := by
  rcases hp : ui.proposedUpdate with _ | pu <;> simp [handleAcceptUpdate, hp]

/-- Once the game is over, one step neither accepts a player action nor
clears the game-over flag. -/
theorem stepEvent_game_over (ui : UiState) (e : GameEvent)
    (h : ui.gameState.isGameOver = true) :
    (stepEvent ui e).1.gameState.isGameOver = true ∧
      (stepEvent ui e).2 = false := by
  cases e with
  | submitAction a chunks err =>
      have he := executeAction_rejected ui a chunks err
        (Or.inr (Or.inr (Or.inr h)))
      simp [stepEvent, he, h]
  | useItem it chunks err =>
      have he := useItem_rejected ui it chunks err
        (Or.inr (Or.inr (Or.inr h)))
      simp [stepEvent, he, h]
  | acceptLore =>
      refine ⟨?_, rfl⟩
      simpa [stepEvent, handleAcceptUpdate_isGameOver] using h
  | rejectLore => simp [stepEvent, handleRejectUpdate, h]
  | confirmLevelUp inc => simp [stepEvent, handleLevelUpConfirm, h]

/-- Once the game is over, no event sequence clears the flag or gets a
player action accepted. -/
theorem runEvents_game_over (ui : UiState) (evs : List GameEvent)
    (h : ui.gameState.isGameOver = true) :
    (runEvents ui evs).gameState.isGameOver = true ∧
      anyActionAccepted ui evs = false := by
  induction evs generalizing ui with
  | nil => exact ⟨h, rfl⟩
  | cons e rest ih =>
      obtain ⟨h₁, h₂⟩ := stepEvent_game_over ui e h
      obtain ⟨h₃, h₄⟩ := ih _ h₁
      exact ⟨by simpa [runEvents] using h₃,
             by simp [anyActionAccepted, h₂, h₄]⟩

/-- C8: a submitted player action — typed or item use — is rejected with
the state unchanged while a turn is outstanding, while a level-up is
pending, while a lore decision is pending, or after the game has ended;
and once the game-over flag is set it stays set and no later event gets
a player action accepted (the state is terminal). -/
theorem submit_gating_and_terminal_game_over :
    (∀ (ui : UiState) (action : String) (chunks : List String)
        (errorText : String),
       ui.isLoading = true ∨ ui.isLevelingUp = true ∨
           ui.proposedUpdate.isSome = true ∨ ui.gameState.isGameOver = true →
       executeActionModel ui action chunks errorText = (ui, false)) ∧
    (∀ (ui : UiState) (item : Item) (chunks : List String)
        (errorText : String),
       ui.isLoading = true ∨ ui.isLevelingUp = true ∨
           ui.proposedUpdate.isSome = true ∨ ui.gameState.isGameOver = true →
       handleUseItem ui item chunks errorText = (ui, false)) ∧
    (∀ (ui : UiState) (evs : List GameEvent),
       ui.gameState.isGameOver = true →
       (runEvents ui evs).gameState.isGameOver = true ∧
         anyActionAccepted ui evs = false) :=
  ⟨executeAction_rejected, useItem_rejected, runEvents_game_over⟩

/-- Witness for C8 on the finished game: a typed submit and an item use
are rejected and a later event sequence leaves the game over with no
action accepted. -/
theorem submit_gating_witness :
    gameOverUi.gameState.isGameOver = true ∧
    executeActionModel gameOverUi ("look") [] ("e") = (gameOverUi, false) ∧
    handleUseItem gameOverUi
        { name := "Potion", description := "d", rarity := ItemRarity.common,
          type := ItemType.consumable, usable := true, effects := [] }
        [] ("e") = (gameOverUi, false) ∧
    (runEvents gameOverUi [GameEvent.submitAction ("go") [] ("e")]
      ).gameState.isGameOver = true ∧
    anyActionAccepted gameOverUi [GameEvent.submitAction ("go") [] ("e")] =
      false :=
  ⟨rfl,
   submit_gating_and_terminal_game_over.1 gameOverUi ("look") [] ("e")
     (Or.inr (Or.inr (Or.inr rfl))),
   submit_gating_and_terminal_game_over.2.1 gameOverUi
     { name := "Potion", description := "d", rarity := ItemRarity.common,
       type := ItemType.consumable, usable := true, effects := [] }
     [] ("e") (Or.inr (Or.inr (Or.inr rfl))),
   (submit_gating_and_terminal_game_over.2.2 gameOverUi
     [GameEvent.submitAction ("go") [] ("e")] rfl).1,
   (submit_gating_and_terminal_game_over.2.2 gameOverUi
     [GameEvent.submitAction ("go") [] ("e")] rfl).2⟩

/-- Unfolding lemma: the rewrite on the empty forest. -/
theorem upd_nil (t : String) : updateObjectivesRecursively t [] = [] := by
  rw [updateObjectivesRecursively.eq_def]

/-- Unfolding lemma: the rewrite at a node carrying the target text. -/
theorem upd_cons_eq (t text : String) (c : Bool)
    (subs : Option (List Objective)) (rest : List Objective) (h : text = t) :
    updateObjectivesRecursively t (Objective.mk text c subs :: rest) =
      Objective.mk text true subs :: updateObjectivesRecursively t rest := by
  rw [updateObjectivesRecursively.eq_def]
  simp [h]

/-- Unfolding lemma: the rewrite at a leaf node with a different text. -/
theorem upd_cons_ne_none (t text : String) (c : Bool)
    (rest : List Objective) (h : ¬ text = t) :
    updateObjectivesRecursively t (Objective.mk text c none :: rest) =
      Objective.mk text c none :: updateObjectivesRecursively t rest := by
  rw [updateObjectivesRecursively.eq_def]
  simp [h]

/-- Unfolding lemma: the rewrite at an inner node with a different
text: descend, and recompute the completion flag only when the subtree
actually changed. -/
theorem upd_cons_ne_some (t text : String) (c : Bool)
    (l rest : List Objective) (h : ¬ text = t) :
    updateObjectivesRecursively t (Objective.mk text c (some l) :: rest) =
      (if objListBeq (updateObjectivesRecursively t l) l then
        Objective.mk text c (some l)
       else
        Objective.mk text
          ((updateObjectivesRecursively t l).all fun o => o.isCompleted)
          (some (updateObjectivesRecursively t l))) ::
        updateObjectivesRecursively t rest := by
  rw [updateObjectivesRecursively.eq_def]
  simp [h]

/-- Unfolding lemmas for the structural comparison. -/
theorem objListBeq_nil : objListBeq [] [] = true := by
  rw [objListBeq.eq_def]

theorem objListBeq_cons_none_none (t₁ : String) (c₁ : Bool)
    (r₁ : List Objective) (t₂ : String) (c₂ : Bool) (r₂ : List Objective) :
    objListBeq (Objective.mk t₁ c₁ none :: r₁) (Objective.mk t₂ c₂ none :: r₂) =
      (t₁ == t₂ && c₁ == c₂ && true && objListBeq r₁ r₂) := by
  rw [objListBeq.eq_def]

theorem objListBeq_cons_some_some (t₁ : String) (c₁ : Bool)
    (l₁ r₁ : List Objective) (t₂ : String) (c₂ : Bool)
    (l₂ r₂ : List Objective) :
    objListBeq (Objective.mk t₁ c₁ (some l₁) :: r₁)
        (Objective.mk t₂ c₂ (some l₂) :: r₂) =
      (t₁ == t₂ && c₁ == c₂ && objListBeq l₁ l₂ && objListBeq r₁ r₂) := by
  rw [objListBeq.eq_def]

/-- Unfolding lemmas for the all-matches-completed check. -/
theorem textCompleted_nil (t : String) : objListTextCompleted t [] = true := by
  rw [objListTextCompleted.eq_def]

theorem textCompleted_cons_none (t text : String) (c : Bool)
    (rest : List Objective) :
    objListTextCompleted t (Objective.mk text c none :: rest) =
      (((if text = t then c else true) && true) &&
        objListTextCompleted t rest) := by
  rw [objListTextCompleted.eq_def]

theorem textCompleted_cons_some (t text : String) (c : Bool)
    (l rest : List Objective) :
    objListTextCompleted t (Objective.mk text c (some l) :: rest) =
      (((if text = t then c else true) && objListTextCompleted t l) &&
        objListTextCompleted t rest) := by
  rw [objListTextCompleted.eq_def]

/-- Unfolding lemmas for the text-occurrence check. -/
theorem hasText_nil (t : String) : objListHasText t [] = false := by
  rw [objListHasText.eq_def]

theorem hasText_cons_none (t text : String) (c : Bool)
    (rest : List Objective) :
    objListHasText t (Objective.mk text c none :: rest) =
      ((decide (text = t) || false) || objListHasText t rest) := by
  rw [objListHasText.eq_def]

theorem hasText_cons_some (t text : String) (c : Bool)
    (l rest : List Objective) :
    objListHasText t (Objective.mk text c (some l) :: rest) =
      ((decide (text = t) || objListHasText t l) || objListHasText t rest) := by
  rw [objListHasText.eq_def]

/-- Structural equality of objective forests is reflexive. -/
theorem objListBeq_refl : ∀ os : List Objective, objListBeq os os = true
  | [] => objListBeq_nil
  | .mk _ _ none :: rest => by
      simp [objListBeq_cons_none_none, objListBeq_refl rest]
  | .mk _ _ (some l) :: rest => by
      simp [objListBeq_cons_some_some, objListBeq_refl l, objListBeq_refl rest]
termination_by os => sizeOf os

/-- When every objective carrying the target text is already completed,
the tree rewrite is the identity. -/
theorem upd_of_textCompleted :
    ∀ (t : String) (os : List Objective),
      objListTextCompleted t os = true → updateObjectivesRecursively t os = os
  | t, [], _ => upd_nil t
  | t, .mk text c subs :: rest, h => by
      cases subs with
      | none =>
          rw [textCompleted_cons_none] at h
          simp only [Bool.and_eq_true] at h
          obtain ⟨⟨hif, _⟩, hrest⟩ := h
          by_cases hx : text = t
          · have hc : c = true := by simpa [hx] using hif
            subst hc
            rw [upd_cons_eq t text true none rest hx,
              upd_of_textCompleted t rest hrest]
          · rw [upd_cons_ne_none t text c rest hx,
              upd_of_textCompleted t rest hrest]
      | some l =>
          rw [textCompleted_cons_some] at h
          simp only [Bool.and_eq_true] at h
          obtain ⟨⟨hif, hsub⟩, hrest⟩ := h
          by_cases hx : text = t
          · have hc : c = true := by simpa [hx] using hif
            subst hc
            rw [upd_cons_eq t text true (some l) rest hx,
              upd_of_textCompleted t rest hrest]
          · have hl := upd_of_textCompleted t l hsub
            rw [upd_cons_ne_some t text c l rest hx, hl,
              upd_of_textCompleted t rest hrest]
            simp [objListBeq_refl]
termination_by _ os => sizeOf os

/-- A forest with no occurrence of the target text trivially satisfies
the all-matches-completed condition. -/
theorem textCompleted_of_hasText_false :
    ∀ (t : String) (os : List Objective),
      objListHasText t os = false → objListTextCompleted t os = true
  | t, [], _ => textCompleted_nil t
  | t, .mk text c subs :: rest, h => by
      cases subs with
      | none =>
          rw [hasText_cons_none] at h
          simp only [Bool.or_eq_false_iff, decide_eq_false_iff_not] at h
          obtain ⟨⟨hx, _⟩, hrest⟩ := h
          rw [textCompleted_cons_none]
          simp [hx, textCompleted_of_hasText_false t rest hrest]
      | some l =>
          rw [hasText_cons_some] at h
          simp only [Bool.or_eq_false_iff, decide_eq_false_iff_not] at h
          obtain ⟨⟨hx, hsub⟩, hrest⟩ := h
          rw [textCompleted_cons_some]
          simp [hx, textCompleted_of_hasText_false t l hsub,
            textCompleted_of_hasText_false t rest hrest]
termination_by _ os => sizeOf os

/-- The objective-tree rewrite is idempotent. -/
theorem upd_idem :
    ∀ (t : String) (os : List Objective),
      updateObjectivesRecursively t (updateObjectivesRecursively t os) =
        updateObjectivesRecursively t os
  | t, [] => by rw [upd_nil, upd_nil]
  | t, .mk text c subs :: rest => by
      by_cases hx : text = t
      · rw [upd_cons_eq t text c subs rest hx,
          upd_cons_eq t text true subs (updateObjectivesRecursively t rest) hx,
          upd_idem t rest]
      · cases subs with
        | none =>
            rw [upd_cons_ne_none t text c rest hx,
              upd_cons_ne_none t text c (updateObjectivesRecursively t rest) hx,
              upd_idem t rest]
        | some l =>
            rw [upd_cons_ne_some t text c l rest hx]
            cases hbeq : objListBeq (updateObjectivesRecursively t l) l with
            | true =>
                simp only [hbeq, if_true]
                rw [upd_cons_ne_some t text c l
                    (updateObjectivesRecursively t rest) hx]
                simp only [hbeq, if_true]
                rw [upd_idem t rest]
            | false =>
                simp only [hbeq, Bool.false_eq_true, if_false]
                rw [upd_cons_ne_some t text
                    ((updateObjectivesRecursively t l).all fun o => o.isCompleted)
                    (updateObjectivesRecursively t l)
                    (updateObjectivesRecursively t rest) hx,
                  upd_idem t l, upd_idem t rest]
                simp [objListBeq_refl]
termination_by _ os => sizeOf os

/-- Re-applying the same quest update to one quest changes nothing. -/
theorem applyQuestUpdateToQuest_idem (u : QuestUpdate) (q : Quest) :
    applyQuestUpdateToQuest u (applyQuestUpdateToQuest u q) =
      applyQuestUpdateToQuest u q := by
  by_cases h : q.title = u.questTitle
  · cases hns : u.newStatus with
    | some s => simp [applyQuestUpdateToQuest, h, hns, upd_idem]
    | none =>
        cases hac : areAllObjectivesComplete
            (updateObjectivesRecursively u.objectiveText q.objectives) with
        | true => simp [applyQuestUpdateToQuest, h, hns, hac, upd_idem]
        | false => simp [applyQuestUpdateToQuest, h, hns, hac, upd_idem]
  · simp [applyQuestUpdateToQuest, h]

/-- Re-applying the same quest update to the quest list changes
nothing. -/
theorem applyQuestUpdate_idem (u : QuestUpdate) (qs : List Quest) :
    applyQuestUpdate u (applyQuestUpdate u qs) = applyQuestUpdate u qs := by
  simp only [applyQuestUpdate, List.map_map]
  exact List.map_congr_left (fun q _ => applyQuestUpdateToQuest_idem u q)

/-- C5: objective-completion propagation is idempotent — re-applying a
quest update leaves the quest list, trees and statuses included,
byte-for-byte unchanged; a rewrite whose target text only matches
already-completed objectives is the identity on the tree; and a rewrite
whose target text matches nothing is a no-op. -/
theorem objective_propagation_idempotent :
    (∀ (u : QuestUpdate) (qs : List Quest),
       applyQuestUpdate u (applyQuestUpdate u qs) = applyQuestUpdate u qs) ∧
    (∀ (t : String) (os : List Objective),
       objListTextCompleted t os = true →
       updateObjectivesRecursively t os = os) ∧
    (∀ (t : String) (os : List Objective),
       objListHasText t os = false →
       updateObjectivesRecursively t os = os) :=
  ⟨applyQuestUpdate_idem, upd_of_textCompleted,
   fun t os h => upd_of_textCompleted t os (textCompleted_of_hasText_false t os h)⟩

/-- Witness for C5 on a concrete nested quest tree. -/
theorem objective_propagation_idempotent_witness :
    applyQuestUpdate ⟨"Q", "B", none⟩
        (applyQuestUpdate ⟨"Q", "B", none⟩
          [{ title := "Q", description := "d", status := QuestStatus.active,
             objectives :=
               [Objective.mk ("A") false
                 (some [Objective.mk ("B") false none])] }]) =
      applyQuestUpdate ⟨"Q", "B", none⟩
        [{ title := "Q", description := "d", status := QuestStatus.active,
           objectives :=
             [Objective.mk ("A") false
               (some [Objective.mk ("B") false none])] }] ∧
    objListTextCompleted ("A")
        [Objective.mk ("A") true (some [Objective.mk ("B") true none])] =
      true ∧
    updateObjectivesRecursively ("A")
        [Objective.mk ("A") true (some [Objective.mk ("B") true none])] =
      [Objective.mk ("A") true (some [Objective.mk ("B") true none])] ∧
    objListHasText ("Z")
        [Objective.mk ("A") true (some [Objective.mk ("B") true none])] =
      false ∧
    updateObjectivesRecursively ("Z")
        [Objective.mk ("A") true (some [Objective.mk ("B") true none])] =
      [Objective.mk ("A") true (some [Objective.mk ("B") true none])] :=
  ⟨objective_propagation_idempotent.1 ⟨"Q", "B", none⟩ _,
   by simp [textCompleted_cons_some, textCompleted_cons_none, textCompleted_nil],
   objective_propagation_idempotent.2.1 ("A") _
     (by simp [textCompleted_cons_some, textCompleted_cons_none,
           textCompleted_nil]),
   by simp [hasText_cons_some, hasText_cons_none, hasText_nil],
   objective_propagation_idempotent.2.2 ("Z") _
     (by simp [hasText_cons_some, hasText_cons_none, hasText_nil])⟩

/-- C3 counterexample: a quest whose single root objective is completed
but has an uncompleted sub-objective, updated without an explicit
status, keeps status `active` although every root objective is marked
completed — auto-promotion uses the transitive check, not the root
check. -/
theorem quest_root_completion_mismatch :
    (applyQuestUpdateToQuest ⟨"Q", "A", none⟩
        { title := "Q", description := "d", status := QuestStatus.active,
          objectives :=
            [Objective.mk ("A") true
              (some [Objective.mk ("B") false none])] }).status =
      QuestStatus.active ∧
    ((applyQuestUpdateToQuest ⟨"Q", "A", none⟩
        { title := "Q", description := "d", status := QuestStatus.active,
          objectives :=
            [Objective.mk ("A") true
              (some [Objective.mk ("B") false none])] }).objectives.all
      (fun o => o.isCompleted)) = true := by
  constructor <;>
    simp [applyQuestUpdateToQuest, updateObjectivesRecursively.eq_def,
      areAllObjectivesComplete.eq_def, objListBeq.eq_def,
      Objective.isCompleted]

/-- C3 amended: on a title match, an explicit `newStatus` always wins;
without one the status becomes `completed` exactly when the recursive
check holds on the updated tree — every objective and transitively every
sub-objective completed — or the status already was `completed` (it is
never demoted).  In particular a quest auto-promoted to `completed` has
every objective, transitively, completed. -/
theorem quest_status_update_characterization
    (u : QuestUpdate) (q : Quest) (h : q.title = u.questTitle) :
    (∀ s, u.newStatus = some s → (applyQuestUpdateToQuest u q).status = s) ∧
    (u.newStatus = none →
      ((applyQuestUpdateToQuest u q).status = QuestStatus.completed ↔
        (areAllObjectivesComplete
            (updateObjectivesRecursively u.objectiveText q.objectives) = true ∨
         q.status = QuestStatus.completed))) := by
  constructor
  · intro s hs
    simp [applyQuestUpdateToQuest, h, hs]
  · intro hn
    cases hac : areAllObjectivesComplete
        (updateObjectivesRecursively u.objectiveText q.objectives) with
    | true => simp [applyQuestUpdateToQuest, h, hn, hac]
    | false => simp [applyQuestUpdateToQuest, h, hn, hac]

/-- Witness for C3 amended: updating the only objective of a one-node
quest without an override promotes the status to `completed` exactly as
the recursive completeness check demands. -/
theorem quest_status_update_characterization_witness :
    (({ title := "Q", description := "d", status := QuestStatus.active,
        objectives := [Objective.mk ("B") false none] } : Quest).title =
      (⟨"Q", "B", none⟩ : QuestUpdate).questTitle) ∧
    ((applyQuestUpdateToQuest ⟨"Q", "B", none⟩
        { title := "Q", description := "d", status := QuestStatus.active,
          objectives := [Objective.mk ("B") false none] }).status =
          QuestStatus.completed ↔
      (areAllObjectivesComplete
          (updateObjectivesRecursively ("B")
            [Objective.mk ("B") false none]) = true ∨
       ({ title := "Q", description := "d", status := QuestStatus.active,
          objectives := [Objective.mk ("B") false none] } : Quest).status =
         QuestStatus.completed)) :=
  ⟨rfl,
   (quest_status_update_characterization ⟨"Q", "B", none⟩
      { title := "Q", description := "d", status := QuestStatus.active,
        objectives := [Objective.mk ("B") false none] } rfl).2 rfl⟩

end Adventure
